import Mathlib

/-!
Verification of the TCP connection core of this repository.

The development shallowly embeds the code of `src/tcp.rs` (the sequence-number
arithmetic, `Connection::accept`, `Connection::on_packet`, `is_between_wrapped`,
`Quad::from_headers`) and the connection-table key construction of
`src/main.rs`.  Machine integers (`u32`) are modelled as `Nat` with explicit
reduction modulo `2 ^ 32` where the source performs wrapping arithmetic;
plain Rust `+`/`-` on `u32` is modelled with its release-mode (wrapping)
semantics.  The I/O side (`tun_tap::Iface`) is modelled by passing the
outcome of the single `nic.send` call as an explicit parameter and by
recording emitted TCP headers in a list.
-/

namespace Tcp

/-- The u32 modulus, 2 ^ 32. -/
def u32Mod : Nat := 4294967296

/-- u32 wrapping addition (`u32::wrapping_add`). -/
def wrapping_add (a b : Nat) : Nat := (a + b) % u32Mod

/-- u32 wrapping subtraction (`u32::wrapping_sub`); arguments are reduced
modulo `2 ^ 32`. -/
def wrapping_sub (a b : Nat) : Nat := (a + u32Mod - b % u32Mod) % u32Mod

/-- Translation of `is_between_wrapped` (src/tcp.rs, lines 260-280): a
three-way comparison of `start` with `x` (the Rust `match start.cmp(&x)`),
then in the `Less` branch `false` exactly when `end >= start && end <= x`,
and in the `Greater` branch `true` exactly when `end < start && end > x`. -/
def is_between_wrapped (start x e : Nat) : Bool :=
  if start = x then false
  else if start < x then
    !(decide (start ≤ e ∧ e ≤ x))
  else
    decide (e < start ∧ x < e)

/-- Helper: the source's case-split test agrees with the single wrapping
formula `(x.wrapping_sub start) < (e.wrapping_sub start) ∧ x ≠ start` on
genuine u32 values. -/
theorem is_between_wrapped_iff (s x e : Nat)
    (hs : s < u32Mod) (hx : x < u32Mod) (he : e < u32Mod) :
    is_between_wrapped s x e = true ↔
      (wrapping_sub x s < wrapping_sub e s ∧ x ≠ s) := by
  unfold is_between_wrapped wrapping_sub u32Mod
  unfold u32Mod at hs hx he
  by_cases h1 : s = x
  · simp only [h1, if_pos rfl]
    simp
  · by_cases h2 : s < x
    · simp only [if_neg h1, if_pos h2, Bool.not_eq_true', decide_eq_false_iff_not,
        not_and, not_le]
      constructor
      · intro h
        omega
      · intro h
        omega
    · simp only [if_neg h1, if_neg h2, decide_eq_true_eq]
      constructor
      · intro h
        omega
      · intro h
        omega

/-- The TCP connection states (src/tcp.rs, lines 16-25). -/
inductive State where
  | Closed
  | Listen
  | Estab
  | SynSent
  | SynRcvd
  | FinWait1
  | FinWait2
deriving Repr, DecidableEq

/-- Send Sequence Space, RFC 793 S3.2 F4 (src/tcp.rs, lines 38-54).
`wnd` is a `u16` in the source; all counters are kept as `Nat`. -/
structure SendSequenceSpace where
  una : Nat
  nxt : Nat
  wnd : Nat
  up : Bool
  wl1 : Nat
  wl2 : Nat
  iss : Nat
deriving Repr, DecidableEq

/-- Receive Sequence Space, RFC 793 S3.2 F5 (src/tcp.rs, lines 67-77). -/
structure RecvSequenceSpace where
  nxt : Nat
  wnd : Nat
  up : Bool
  irs : Nat
deriving Repr, DecidableEq

/-- A TCP connection (src/tcp.rs, lines 88-94).  The source also carries an
`ip : Ipv4Header` template from the external `etherparse` crate; no claim
refers to it and it is only ever the default header, so it is omitted from
the embedding. -/
structure Connection where
  state : State
  send : SendSequenceSpace
  recv : RecvSequenceSpace
deriving Repr, DecidableEq

/-- `impl Default for Connection` (src/tcp.rs, lines 112-134). -/
def Connection.default : Connection :=
  { state := .Listen
    send := { una := 0, nxt := 0, wnd := 0, up := false, wl1 := 0, wl2 := 0, iss := 0 }
    recv := { nxt := 0, wnd := 0, up := false, irs := 0 } }

/-- The fields of a parsed inbound IPv4 header that the core reads
(addresses modelled as naturals). -/
structure IpIn where
  source_addr : Nat
  destination_addr : Nat
deriving Repr, DecidableEq

/-- The fields of a parsed inbound TCP header that the core reads. -/
structure TcpSegIn where
  source_port : Nat
  destination_port : Nat
  sequence_number : Nat
  acknowledgment_number : Nat
  window_size : Nat
  syn : Bool
deriving Repr, DecidableEq

/-- A TCP header as the core emits it (`etherparse::TcpHeader` fields that
`accept` writes). -/
structure TcpHeaderOut where
  source_port : Nat
  destination_port : Nat
  sequence_number : Nat
  acknowledgment_number : Nat
  window_size : Nat
  syn : Bool
  ack : Bool
deriving Repr, DecidableEq

/-- A TCP connection quad (src/tcp.rs, lines 10-14). -/
structure Quad where
  src : Nat × Nat
  dst : Nat × Nat
deriving Repr, DecidableEq

/-- `Quad::from_headers` (src/tcp.rs, lines 100-108):
`src = (source addr, source port)`, `dst = (destination addr, destination port)`. -/
def Quad.from_headers (iph : IpIn) (tcph : TcpSegIn) : Quad :=
  { src := (iph.source_addr, tcph.source_port)
    dst := (iph.destination_addr, tcph.destination_port) }

/-- The connection-table routing key exactly as `main` builds it
(src/main.rs, lines 36-40): both the `src` and the `dst` pair take their
port from `tcph.destination_port()`. -/
def mainRoutingQuad (iph : IpIn) (tcph : TcpSegIn) : Quad :=
  { src := (iph.source_addr, tcph.destination_port)
    dst := (iph.destination_addr, tcph.destination_port) }

/-- `std::io::Result` at the granularity the claims need: success with a
value, or an I/O error. -/
inductive IoResult (α : Type) where
  | ok (a : α)
  | err
deriving Repr, DecidableEq

/-- Result of a call to `Connection::accept`: the prototype (`self`) after
the call, the returned `io::Result<Option<Connection>>`, and the list of
TCP headers handed to `nic.send`. -/
structure AcceptResult where
  self : Connection
  ret : IoResult (Option Connection)
  sent : List TcpHeaderOut
deriving Repr, DecidableEq

/-- `Connection::accept` (src/tcp.rs, lines 138-213).

* No SYN flag: return `Ok(None)` with no side effect (lines 146-149).
* Otherwise the prototype's `recv` block is overwritten from the segment
  (lines 155-157), a SYN+ACK header is built with
  `TcpHeader::new(dst_port, src_port, 0, 10)` (sequence number `0`,
  window `10`, lines 160-165), the new connection is built with `iss = 0`,
  `send.una = self.send.iss`, `send.nxt = self.send.una + 1`,
  `send.wnd = 10` (lines 175-194), the SYN+ACK's acknowledgment number is
  taken from the mutated `self.recv.nxt` and its SYN and ACK flags are set
  (lines 196-198), and the serialized reply is passed to `nic.send`
  (line 211) whose `io::Result` the source drops, so the call returns
  `Ok(Some(c))` regardless of `sendResult` (line 212). -/
def Connection.accept (self : Connection) (sendResult : IoResult Unit)
    (iph : IpIn) (tcph : TcpSegIn) (dataLen : Nat) : AcceptResult :=
  if !tcph.syn then
    { self := self, ret := .ok none, sent := [] }
  else
    let self1 : Connection :=
      { self with
        recv := { nxt := (tcph.sequence_number + 1) % u32Mod
                  irs := tcph.sequence_number
                  wnd := tcph.window_size
                  up := self.recv.up } }
    let iss : Nat := 0
    let c : Connection :=
      { state := .SynRcvd
        send := { iss := iss
                  una := self.send.iss
                  nxt := (self.send.una + 1) % u32Mod
                  wnd := 10, up := false, wl1 := 0, wl2 := 0 }
        recv := { irs := tcph.sequence_number
                  nxt := (tcph.sequence_number + 1) % u32Mod
                  wnd := tcph.window_size
                  up := false } }
    let syn_ack : TcpHeaderOut :=
      { source_port := tcph.destination_port
        destination_port := tcph.source_port
        sequence_number := 0
        acknowledgment_number := self1.recv.nxt
        window_size := 10
        syn := true
        ack := true }
    { self := self1, ret := .ok (some c), sent := [syn_ack] }

/-- The segment sequence-acceptability test of `on_packet`
(src/tcp.rs, lines 231-237): `start_inside_window || end_inside_window`,
where the last byte is `seqn + datalen - 1` in wrapping u32 arithmetic
(the source uses plain `+`/`-`; release-mode semantics wrap). -/
def segment_acceptable (c : Connection) (seqn datalen : Nat) : Bool :=
  let wend := wrapping_add c.recv.nxt c.recv.wnd
  is_between_wrapped (wrapping_sub c.recv.nxt 1) seqn wend ||
  is_between_wrapped (wrapping_sub c.recv.nxt 1)
    ((seqn + datalen + u32Mod - 1) % u32Mod) wend

/-- Outcome of a call to `Connection::on_packet`: `ok` carries `self` after
the call and the emitted headers (the source never sends here and always
returns `Ok(())`); `panic` marks executions that reach the
`unimplemented!()` macro in the `Estab` arm, which aborts. -/
inductive PacketOutcome where
  | ok (conn : Connection) (sent : List TcpHeaderOut)
  | panic
deriving Repr, DecidableEq

/-- `Connection::on_packet` (src/tcp.rs, lines 215-255).

* Acceptable-ACK check (lines 224-227): if
  `is_between_wrapped(send.una, ackn, send.nxt.wrapping_add(1))` fails,
  return `Ok(())` untouched.
* Segment sequence check (lines 231-239): `datalen` is
  `data.len() as u32` (reduction mod `2 ^ 32`); if neither the first nor
  the last byte is inside the window, return `Ok(())` untouched.
* State match (lines 242-252): the `SynRcvd` arm is an empty block (only a
  comment), the `Estab` arm is `unimplemented!()`, every other state is a
  no-op; then `Ok(())` (line 254). -/
def Connection.on_packet (self : Connection) (tcph : TcpSegIn)
    (dataLen : Nat) : PacketOutcome :=
  if !(is_between_wrapped self.send.una tcph.acknowledgment_number
        (wrapping_add self.send.nxt 1)) then
    .ok self []
  else if !(segment_acceptable self tcph.sequence_number (dataLen % u32Mod)) then
    .ok self []
  else
    match self.state with
    | .SynRcvd => .ok self []
    | .Estab => .panic
    | _ => .ok self []

/-! ### Concrete example values used by the scenario theorems -/

/-- An inbound IPv4 header from 10.0.0.2 to 10.0.0.1 (addresses as naturals). -/
def exIph : IpIn := { source_addr := 167772162, destination_addr := 167772161 }

/-- The handshake-scenario SYN of the spec: `seq = 1000`, `window = 64`. -/
def exSynSeg : TcpSegIn :=
  { source_port := 1000, destination_port := 443, sequence_number := 1000
    acknowledgment_number := 0, window_size := 64, syn := true }

/-- The connection `Connection::default().accept` produces for `exSynSeg`. -/
def handshakeConn : Connection :=
  { state := .SynRcvd
    send := { una := 0, nxt := 1, wnd := 10, up := false, wl1 := 0, wl2 := 0, iss := 0 }
    recv := { nxt := 1001, wnd := 64, up := false, irs := 1000 } }

/-- The handshake-completing ACK of the spec: `ack = send.iss + 1 = 1`,
`seq = 1001` (in order), no payload. -/
def completingAck : TcpSegIn :=
  { source_port := 1000, destination_port := 443, sequence_number := 1001
    acknowledgment_number := 1, window_size := 64, syn := false }

/-- A stale duplicate ACK carrying `ack = send.iss = 0`. -/
def dupAckSeg : TcpSegIn :=
  { source_port := 1000, destination_port := 443, sequence_number := 1001
    acknowledgment_number := 0, window_size := 64, syn := false }

/-- An established connection with `recv.nxt = 100`, `recv.wnd = 64`,
`send.una = 0`, `send.nxt = 10`. -/
def estabConn : Connection :=
  { state := .Estab
    send := { una := 0, nxt := 10, wnd := 10, up := false, wl1 := 0, wl2 := 0, iss := 0 }
    recv := { nxt := 100, wnd := 64, up := false, irs := 99 } }

/-- A segment whose first byte sits exactly at `recv.nxt + recv.wnd`
(`seq = 164` against `estabConn`), with one payload byte and a valid ack. -/
def edgeSeg : TcpSegIn :=
  { source_port := 1000, destination_port := 443, sequence_number := 164
    acknowledgment_number := 5, window_size := 64, syn := false }

/-- An in-window segment for `estabConn` (`seq = recv.nxt = 100`, valid ack). -/
def inWindowSeg : TcpSegIn :=
  { source_port := 1000, destination_port := 443, sequence_number := 100
    acknowledgment_number := 5, window_size := 64, syn := false }

/-- A far out-of-window segment for `estabConn` (`seq = recv.nxt + 1000`). -/
def farSeg : TcpSegIn :=
  { source_port := 1000, destination_port := 443, sequence_number := 1100
    acknowledgment_number := 5, window_size := 64, syn := false }

/-- A prototype connection with a non-default state and receive block, used
to make the frame effect of `accept` visible. -/
def protoConn : Connection :=
  { state := .FinWait1
    send := { una := 3, nxt := 4, wnd := 5, up := true, wl1 := 6, wl2 := 7, iss := 8 }
    recv := { nxt := 7, wnd := 9, up := true, irs := 2 } }

/-- A non-SYN segment aimed at an unknown quad. -/
def nonSynSeg : TcpSegIn :=
  { source_port := 1000, destination_port := 443, sequence_number := 1000
    acknowledgment_number := 0, window_size := 64, syn := false }

/-- First remote peer: source port 1000, local port 443. -/
def peerA : TcpSegIn := exSynSeg

/-- Second remote peer: identical to `peerA` except for source port 2000. -/
def peerB : TcpSegIn :=
  { source_port := 2000, destination_port := 443, sequence_number := 1000
    acknowledgment_number := 0, window_size := 64, syn := true }

/-! ### Spec-side definitions (written from the spec's words, for comparison
with the source-derived definitions) -/

/-- Modelled from the spec: membership of `x` in the circular interval that
opens just after `lo` and is *open* at `hi`, by the strict-between formula
`(x.wrapping_sub lo) < (hi.wrapping_sub lo)` with `x ≠ lo`. -/
def InCircularOpen (lo x hi : Nat) : Prop :=
  wrapping_sub x lo < wrapping_sub hi lo ∧ x ≠ lo

instance (lo x hi : Nat) : Decidable (InCircularOpen lo x hi) := by
  unfold InCircularOpen; infer_instance

/-- Modelled from the spec: membership of `x` in the circular interval
`(lo, hi]` *closed* at `hi`: `0 < x - lo ≤ hi - lo` in wrapping arithmetic. -/
def InCircularOpenClosed (lo x hi : Nat) : Prop :=
  0 < wrapping_sub x lo ∧ wrapping_sub x lo ≤ wrapping_sub hi lo

instance (lo x hi : Nat) : Decidable (InCircularOpenClosed lo x hi) := by
  unfold InCircularOpenClosed; infer_instance

/-- Modelled from the spec words of claim C5: a segment is acceptable iff its
first byte `seqn` or its last byte `seqn + datalen - 1` lies in the circular
interval `(recv.nxt - 1, recv.nxt + recv.wnd]`, with `datalen` treated as at
least 1 even for zero-length segments. -/
def claim_acceptable_spec (c : Connection) (seqn datalen : Nat) : Prop :=
  let dl := max datalen 1
  let lo := wrapping_sub c.recv.nxt 1
  let hi := wrapping_add c.recv.nxt c.recv.wnd
  InCircularOpenClosed lo seqn hi ∨
  InCircularOpenClosed lo ((seqn + dl + u32Mod - 1) % u32Mod) hi

instance (c : Connection) (seqn datalen : Nat) :
    Decidable (claim_acceptable_spec c seqn datalen) := by
  unfold claim_acceptable_spec; infer_instance

/-- Helper: the SYN branch of `accept` written out as one record, so the
scenario theorems can rewrite with it. -/
theorem accept_syn_eq (self : Connection) (sendResult : IoResult Unit)
    (iph : IpIn) (tcph : TcpSegIn) (dlen : Nat) (hsyn : tcph.syn = true) :
    self.accept sendResult iph tcph dlen =
      { self := { self with
                  recv := { nxt := (tcph.sequence_number + 1) % u32Mod
                            irs := tcph.sequence_number
                            wnd := tcph.window_size
                            up := self.recv.up } }
        ret := .ok (some
          { state := .SynRcvd
            send := { iss := 0
                      una := self.send.iss
                      nxt := (self.send.una + 1) % u32Mod
                      wnd := 10, up := false, wl1 := 0, wl2 := 0 }
            recv := { irs := tcph.sequence_number
                      nxt := (tcph.sequence_number + 1) % u32Mod
                      wnd := tcph.window_size
                      up := false } })
        sent := [{ source_port := tcph.destination_port
                   destination_port := tcph.source_port
                   sequence_number := 0
                   acknowledgment_number := (tcph.sequence_number + 1) % u32Mod
                   window_size := 10
                   syn := true
                   ack := true }] } := by
  unfold Connection.accept
  rw [hsyn]
  rfl

/-! ### Claim theorems -/

/-- C1: for every u32 `start`, `x`, `end`, `is_between_wrapped start x end`
is true iff `(x.wrapping_sub start) < (end.wrapping_sub start)` and
`x ≠ start`; in particular it is false whenever `start = end` and whenever
`x = start`, and it is true on the wraparound instance
`start = 0xFFFFFFF0, x = 0xFFFFFFFF, end = 5`. -/
theorem is_between_wrapped_matches_spec (s x e : Nat)
    (hs : s < u32Mod) (hx : x < u32Mod) (he : e < u32Mod) :
    (is_between_wrapped s x e = true ↔
      (wrapping_sub x s < wrapping_sub e s ∧ x ≠ s))
    ∧ (s = e → is_between_wrapped s x e = false)
    ∧ (x = s → is_between_wrapped s x e = false)
    ∧ is_between_wrapped 4294967280 4294967295 5 = true := by
  refine ⟨is_between_wrapped_iff s x e hs hx he, ?_, ?_, by decide⟩
  · rintro rfl
    rcases Bool.eq_false_or_eq_true (is_between_wrapped s x s) with hb | hb
    · exfalso
      have h := (is_between_wrapped_iff s x s hs hx hs).mp hb
      unfold wrapping_sub u32Mod at h
      omega
    · exact hb
  · rintro rfl
    simp [is_between_wrapped]

/-- C1 witness: the law instantiated at `start = 5, x = 7, end = 9`. -/
theorem is_between_wrapped_matches_spec_witness :
    (is_between_wrapped 5 7 9 = true ↔
      (wrapping_sub 7 5 < wrapping_sub 9 5 ∧ 7 ≠ 5))
    ∧ ((5 : Nat) = 9 → is_between_wrapped 5 7 9 = false)
    ∧ ((7 : Nat) = 5 → is_between_wrapped 5 7 9 = false)
    ∧ is_between_wrapped 4294967280 4294967295 5 = true :=
  is_between_wrapped_matches_spec 5 7 9 (by decide) (by decide) (by decide)

/-- C3 (code bug): the connection that `accept` builds for the handshake SYN
(`handshakeConn`), when fed the handshake-completing ACK `ack = send.iss + 1`
— which passes both the ACK-acceptability and the sequence-acceptability
test — is returned *unchanged* by `on_packet`: the `SynRcvd` match arm of
the source is an empty block, so no transition to `Estab` happens and
`send.una` keeps its old value `0` instead of the claimed `ackn = 1`. -/
theorem synrcvd_valid_ack_no_transition :
    (Connection.default.accept (.ok ()) exIph exSynSeg 0).ret
        = .ok (some handshakeConn)
    ∧ is_between_wrapped handshakeConn.send.una
        completingAck.acknowledgment_number
        (wrapping_add handshakeConn.send.nxt 1) = true
    ∧ segment_acceptable handshakeConn completingAck.sequence_number 0 = true
    ∧ handshakeConn.on_packet completingAck 0 = .ok handshakeConn []
    ∧ handshakeConn.state = State.SynRcvd
    ∧ handshakeConn.send.una = 0 := by
  refine ⟨by decide, by decide, by decide, by decide, rfl, rfl⟩

/-- C4 (code bug): the routing key `main` builds takes *both* ports from the
segment's destination port, so two remote peers that differ only in source
port collapse onto one table key — the correct `Quad::from_headers` (which
main.rs does not call) would keep them distinct. -/
theorem routing_quad_conflates_ports :
    peerA.source_port ≠ peerB.source_port
    ∧ mainRoutingQuad exIph peerA = mainRoutingQuad exIph peerB
    ∧ Quad.from_headers exIph peerA ≠ Quad.from_headers exIph peerB := by
  refine ⟨by decide, by decide, by decide⟩

/-- C6: whenever the acknowledgment number fails
`is_between_wrapped (send.una) ackn (send.nxt + 1)`, `on_packet` returns with
the connection unchanged and emits nothing. -/
theorem bad_ack_discarded (c : Connection) (tcph : TcpSegIn) (dlen : Nat)
    (h : is_between_wrapped c.send.una tcph.acknowledgment_number
          (wrapping_add c.send.nxt 1) = false) :
    c.on_packet tcph dlen = .ok c [] := by
  unfold Connection.on_packet
  simp [h]

/-- C6 witness: a duplicate earlier ACK with `ack = send.iss = 0` against the
post-handshake `SynRcvd` connection fails the strict bound and is discarded
with no transition. -/
theorem bad_ack_discarded_witness :
    is_between_wrapped handshakeConn.send.una dupAckSeg.acknowledgment_number
      (wrapping_add handshakeConn.send.nxt 1) = false
    ∧ handshakeConn.on_packet dupAckSeg 0 = .ok handshakeConn [] :=
  ⟨by decide, bad_ack_discarded handshakeConn dupAckSeg 0 (by decide)⟩

/-- C7: for every segment with the SYN flag clear, `accept` returns
`Ok(None)`, creates no connection, emits no reply, and leaves the connection
it was called on unchanged. -/
theorem accept_without_syn_noop (self : Connection) (sendResult : IoResult Unit)
    (iph : IpIn) (tcph : TcpSegIn) (dlen : Nat) (h : tcph.syn = false) :
    self.accept sendResult iph tcph dlen
      = { self := self, ret := .ok none, sent := [] } := by
  unfold Connection.accept
  simp [h]

/-- C7 witness: a non-SYN segment to the default (listening) prototype. -/
theorem accept_without_syn_noop_witness :
    nonSynSeg.syn = false
    ∧ Connection.default.accept (.ok ()) exIph nonSynSeg 0
        = { self := Connection.default, ret := .ok none, sent := [] } :=
  ⟨rfl, accept_without_syn_noop Connection.default (.ok ()) exIph nonSynSeg 0 rfl⟩

/-- C2: for every inbound segment with the SYN flag set, `accept` on the
default prototype returns a new connection in `SynRcvd` with
`recv.irs = seq`, `recv.nxt = seq + 1` (mod 2^32), `recv.wnd` = the
segment's window, `send.una = iss` and `send.nxt = iss + 1`, and transmits
exactly one SYN+ACK whose sequence number is `iss`, whose acknowledgment
number is `recv.nxt`, and whose window is `send.wnd`. -/
theorem accept_syn_establishes_synrcvd (sendResult : IoResult Unit)
    (iph : IpIn) (tcph : TcpSegIn) (dlen : Nat) (hsyn : tcph.syn = true) :
    ∃ c sa,
      (Connection.default.accept sendResult iph tcph dlen).ret = .ok (some c)
      ∧ (Connection.default.accept sendResult iph tcph dlen).sent = [sa]
      ∧ c.state = .SynRcvd
      ∧ c.recv.irs = tcph.sequence_number
      ∧ c.recv.nxt = (tcph.sequence_number + 1) % u32Mod
      ∧ c.recv.wnd = tcph.window_size
      ∧ c.send.una = c.send.iss
      ∧ c.send.nxt = (c.send.iss + 1) % u32Mod
      ∧ sa.sequence_number = c.send.iss
      ∧ sa.acknowledgment_number = c.recv.nxt
      ∧ sa.window_size = c.send.wnd
      ∧ sa.syn = true
      ∧ sa.ack = true := by
  rw [accept_syn_eq Connection.default sendResult iph tcph dlen hsyn]
  exact ⟨_, _, rfl, rfl, rfl, rfl, rfl, rfl, rfl, rfl, rfl, rfl, rfl, rfl, rfl⟩

/-- C2 witness: the handshake SYN `seq = 1000`, `window = 64`. -/
theorem accept_syn_establishes_synrcvd_witness :
    ∃ c sa,
      (Connection.default.accept (.ok ()) exIph exSynSeg 0).ret = .ok (some c)
      ∧ (Connection.default.accept (.ok ()) exIph exSynSeg 0).sent = [sa]
      ∧ c.state = .SynRcvd
      ∧ c.recv.irs = exSynSeg.sequence_number
      ∧ c.recv.nxt = (exSynSeg.sequence_number + 1) % u32Mod
      ∧ c.recv.wnd = exSynSeg.window_size
      ∧ c.send.una = c.send.iss
      ∧ c.send.nxt = (c.send.iss + 1) % u32Mod
      ∧ sa.sequence_number = c.send.iss
      ∧ sa.acknowledgment_number = c.recv.nxt
      ∧ sa.window_size = c.send.wnd
      ∧ sa.syn = true
      ∧ sa.ack = true :=
  accept_syn_establishes_synrcvd (.ok ()) exIph exSynSeg 0 rfl

/-- C5 counterexample: against `estabConn` (`recv.nxt = 100`,
`recv.wnd = 64`) the one-byte segment `edgeSeg` with `seq = 164` has its
first byte in the claimed interval `(recv.nxt - 1, recv.nxt + recv.wnd]`
(closed at the right end), and its acknowledgment number passes the ACK
test — yet the code's test rejects both ends and `on_packet` silently
discards the segment, so the claimed acceptability criterion is not the
one the code implements. -/
theorem segment_acceptability_claim_cex :
    claim_acceptable_spec estabConn 164 1
    ∧ is_between_wrapped estabConn.send.una edgeSeg.acknowledgment_number
        (wrapping_add estabConn.send.nxt 1) = true
    ∧ segment_acceptable estabConn 164 1 = false
    ∧ estabConn.on_packet edgeSeg 1 = .ok estabConn [] := by
  refine ⟨by decide, by decide, by decide, by decide⟩

/-- C5 amended: after the ACK test, a segment is acceptable iff its first
byte `seqn` or the wrapped value `seqn + datalen - 1` (raw payload length,
no lower bound of 1, so a zero-length segment tests `seqn - 1`) lies in the
circular *open* interval `(recv.nxt - 1, recv.nxt + recv.wnd)`; when
neither does, `on_packet` returns with the connection unchanged and no
reply. -/
theorem segment_acceptability_amended (c : Connection) (tcph : TcpSegIn)
    (dlen : Nat) (hseq : tcph.sequence_number < u32Mod) :
    (segment_acceptable c tcph.sequence_number (dlen % u32Mod) = true ↔
      (InCircularOpen (wrapping_sub c.recv.nxt 1) tcph.sequence_number
          (wrapping_add c.recv.nxt c.recv.wnd)
        ∨ InCircularOpen (wrapping_sub c.recv.nxt 1)
          ((tcph.sequence_number + dlen % u32Mod + u32Mod - 1) % u32Mod)
          (wrapping_add c.recv.nxt c.recv.wnd)))
    ∧ (segment_acceptable c tcph.sequence_number (dlen % u32Mod) = false →
        c.on_packet tcph dlen = .ok c []) := by
  have hmod : ∀ a b : Nat, a % b % b = a % b := fun a b => Nat.mod_mod_of_dvd a dvd_rfl
  have hlt : ∀ a : Nat, a % u32Mod < u32Mod := by
    intro a
    exact Nat.mod_lt _ (by unfold u32Mod; omega)
  constructor
  · unfold segment_acceptable InCircularOpen
    rw [Bool.or_eq_true]
    rw [is_between_wrapped_iff _ _ _ (by unfold wrapping_sub; exact hlt _) hseq
      (by unfold wrapping_add; exact hlt _)]
    rw [is_between_wrapped_iff _ _ _ (by unfold wrapping_sub; exact hlt _) (hlt _)
      (by unfold wrapping_add; exact hlt _)]
  · intro h
    unfold Connection.on_packet
    rcases Bool.eq_false_or_eq_true (is_between_wrapped c.send.una
        tcph.acknowledgment_number (wrapping_add c.send.nxt 1)) with hb | hb <;>
      rw [hb, h] <;> simp

/-- C5 amended witness: the out-of-window example of the spec — `Estab`
with `recv.nxt = 100`, `recv.wnd = 64`, one-byte segment at
`seq = recv.nxt + 1000` — instantiates the amended statement; both the
characterization and the silent discard evaluate there. -/
theorem segment_acceptability_amended_witness :
    farSeg.sequence_number < u32Mod
    ∧ ((segment_acceptable estabConn farSeg.sequence_number (1 % u32Mod) = true ↔
        (InCircularOpen (wrapping_sub estabConn.recv.nxt 1) farSeg.sequence_number
            (wrapping_add estabConn.recv.nxt estabConn.recv.wnd)
          ∨ InCircularOpen (wrapping_sub estabConn.recv.nxt 1)
            ((farSeg.sequence_number + 1 % u32Mod + u32Mod - 1) % u32Mod)
            (wrapping_add estabConn.recv.nxt estabConn.recv.wnd)))
      ∧ (segment_acceptable estabConn farSeg.sequence_number (1 % u32Mod) = false →
          estabConn.on_packet farSeg 1 = .ok estabConn [])) :=
  ⟨by decide, segment_acceptability_amended estabConn farSeg 1 (by decide)⟩

/-- C8 (code bug): a well-formed in-window segment delivered to an `Estab`
connection drives `on_packet` into the `unimplemented!()` arm, which aborts
the process — contradicting the claim that the core never panics and that
segments reaching the `Estab` branch do not abort. -/
theorem estab_branch_aborts :
    is_between_wrapped estabConn.send.una inWindowSeg.acknowledgment_number
      (wrapping_add estabConn.send.nxt 1) = true
    ∧ segment_acceptable estabConn inWindowSeg.sequence_number 1 = true
    ∧ estabConn.on_packet inWindowSeg 1 = .panic := by
  refine ⟨by decide, by decide, by decide⟩

/-- C9 (code bug): `accept` drops the `io::Result` of `nic.send`
(src/tcp.rs, line 211 has no `?`), so even when the underlying send errors
the call still returns `Ok(Some(connection))` instead of surfacing the
I/O error. -/
theorem accept_ignores_send_failure :
    (Connection.default.accept .err exIph exSynSeg 0).ret
      = .ok (some handshakeConn) := by decide

/-- C10: calling `accept` with a SYN segment overwrites the prototype's own
`recv.nxt`, `recv.irs` and `recv.wnd` from the segment, leaves the
prototype's `state` and `send` unchanged, and the emitted SYN+ACK's
acknowledgment number is read from the mutated prototype's `recv.nxt`. -/
theorem accept_mutates_prototype (self : Connection) (sendResult : IoResult Unit)
    (iph : IpIn) (tcph : TcpSegIn) (dlen : Nat) (hsyn : tcph.syn = true) :
    (self.accept sendResult iph tcph dlen).self.recv.nxt
        = (tcph.sequence_number + 1) % u32Mod
    ∧ (self.accept sendResult iph tcph dlen).self.recv.irs
        = tcph.sequence_number
    ∧ (self.accept sendResult iph tcph dlen).self.recv.wnd
        = tcph.window_size
    ∧ (self.accept sendResult iph tcph dlen).self.state = self.state
    ∧ (self.accept sendResult iph tcph dlen).self.send = self.send
    ∧ ∃ sa, (self.accept sendResult iph tcph dlen).sent = [sa]
        ∧ sa.acknowledgment_number
            = (self.accept sendResult iph tcph dlen).self.recv.nxt := by
  rw [accept_syn_eq self sendResult iph tcph dlen hsyn]
  exact ⟨rfl, rfl, rfl, rfl, rfl, _, rfl, rfl⟩

/-- C10 witness: a non-default prototype (state `FinWait1`, nonzero receive
block) fed the handshake SYN; the mutation is visible against its old
values. -/
theorem accept_mutates_prototype_witness :
    exSynSeg.syn = true
    ∧ ((protoConn.accept (.ok ()) exIph exSynSeg 0).self.recv.nxt
          = (exSynSeg.sequence_number + 1) % u32Mod
      ∧ (protoConn.accept (.ok ()) exIph exSynSeg 0).self.recv.irs
          = exSynSeg.sequence_number
      ∧ (protoConn.accept (.ok ()) exIph exSynSeg 0).self.recv.wnd
          = exSynSeg.window_size
      ∧ (protoConn.accept (.ok ()) exIph exSynSeg 0).self.state = protoConn.state
      ∧ (protoConn.accept (.ok ()) exIph exSynSeg 0).self.send = protoConn.send
      ∧ ∃ sa, (protoConn.accept (.ok ()) exIph exSynSeg 0).sent = [sa]
          ∧ sa.acknowledgment_number
              = (protoConn.accept (.ok ()) exIph exSynSeg 0).self.recv.nxt) :=
  ⟨rfl, accept_mutates_prototype protoConn (.ok ()) exIph exSynSeg 0 rfl⟩

end Tcp
